import Mathlib

set_option maxRecDepth 8192

/-!
Verification of the backend health poller (`cache_backend_poll.c`).

The definitions below are a shallow embedding of the C source:

* machine `unsigned`/`uint64_t` arithmetic is `Nat`, with an explicit
  `% 2^64` where the C code relies on 64-bit wraparound;
* C `double` values (timestamps, averages, rates) are modelled as `Rat`,
  i.e. exact real arithmetic;
* the response buffer is a `List Char`;
* the fallible network calls (`write`, `read`, `poll`) are modelled by
  passing their outcomes as explicit parameters.
-/

namespace VBP

/-- `AVG_RATE` from `cache_backend_poll.c`: the cap of the exponential
averaging denominator. -/
def AVG_RATE : Nat := 4

/-- `~0U`: the sentinel value of the `initial` probe parameter, and the
largest value of a C `unsigned`. -/
def UINT_MAX : Nat := 2 ^ 32 - 1

/-- Population count of a natural number (number of one bits); the
specification-side meaning of "popcount". -/
def popcount (n : Nat) : Nat :=
  if h : n = 0 then 0 else n % 2 + popcount (n / 2)
termination_by n
decreasing_by exact Nat.div_lt_self (Nat.pos_of_ne_zero h) one_lt_two

/-- The probe parameters (`struct vrt_backend_probe`), with the fields read
by `cache_backend_poll.c`.  `window`, `threshold`, `initial` and
`exp_status` are C `unsigned`; `timeout` and `interval` are C `double`. -/
structure vrt_backend_probe where
  url : Option (List Char)
  request : Option (List Char)
  timeout : Rat
  interval : Rat
  exp_status : Nat
  window : Nat
  threshold : Nat
  initial : Nat
deriving Repr, DecidableEq

/-- `vbp_set_defaults`, statement 1: `if (timeout == 0.0) timeout = 2.0`. -/
def vbp_def_timeout (p : vrt_backend_probe) : vrt_backend_probe :=
  if p.timeout = 0 then { p with timeout := 2 } else p

/-- `vbp_set_defaults`, statement 2: `if (interval == 0.0) interval = 5.0`. -/
def vbp_def_interval (p : vrt_backend_probe) : vrt_backend_probe :=
  if p.interval = 0 then { p with interval := 5 } else p

/-- `vbp_set_defaults`, statement 3: `if (window == 0) window = 8`. -/
def vbp_def_window (p : vrt_backend_probe) : vrt_backend_probe :=
  if p.window = 0 then { p with window := 8 } else p

/-- `vbp_set_defaults`, statement 4: `if (threshold == 0) threshold = 3`. -/
def vbp_def_threshold (p : vrt_backend_probe) : vrt_backend_probe :=
  if p.threshold = 0 then { p with threshold := 3 } else p

/-- `vbp_set_defaults`, statement 5: `if (exp_status == 0) exp_status = 200`. -/
def vbp_def_status (p : vrt_backend_probe) : vrt_backend_probe :=
  if p.exp_status = 0 then { p with exp_status := 200 } else p

/-- `vbp_set_defaults`, statement 6:
`if (initial == ~0U) initial = threshold - 1`. -/
def vbp_def_sentinel (p : vrt_backend_probe) : vrt_backend_probe :=
  if p.initial = UINT_MAX then { p with initial := p.threshold - 1 } else p

/-- `vbp_set_defaults`, statement 7:
`if (initial > threshold) initial = threshold`. -/
def vbp_def_clamp (p : vrt_backend_probe) : vrt_backend_probe :=
  if p.initial > p.threshold then { p with initial := p.threshold } else p

/-- `vbp_set_defaults`: the seven statements of the C function, in source
order.  (Note: nothing clamps `threshold` against `window`.) -/
def vbp_set_defaults (p : vrt_backend_probe) : vrt_backend_probe :=
  vbp_def_clamp (vbp_def_sentinel (vbp_def_status (vbp_def_threshold
    (vbp_def_window (vbp_def_interval (vbp_def_timeout p))))))

/-- The `good`-count loop of `vbp_has_poked`:
`for (i = j = 0; i < window; i++) { if (u & 1) j++; u >>= 1; }`. -/
def vbp_good_loop (u j : Nat) : Nat → Nat
  | 0 => j
  | i + 1 => vbp_good_loop (u / 2) (if u % 2 = 1 then j + 1 else j) i

/-- The value stored into `vt->good` by `vbp_has_poked`, as a function of the
`happy` bitmap and the `window` parameter. -/
def vbp_good (happy window : Nat) : Nat :=
  vbp_good_loop happy 0 window

/-- The `vbp_target` fields mutated by the record-keeping step
(`vbp_has_poked`): the `happy` bitmap, the last round-trip time, the
exponential average and its denominator, and the derived `good` count. -/
structure TargetStats where
  happy : Nat
  last : Rat
  avg : Rat
  rate : Rat
  good : Nat
deriving Repr, DecidableEq

/-- The two backend fields the poller writes (`struct backend`). -/
structure BackendHealth where
  healthy : Bool
  health_changed : Rat
deriving Repr, DecidableEq

/-- The exponential-average section of `vbp_has_poked`: when the newest
`happy` bit is set, bump `rate` (capped at `AVG_RATE`) and move `avg`
toward `last` by `(last - avg) / rate`. -/
def vbp_avg_update (vt : TargetStats) : TargetStats :=
  if vt.happy &&& 1 = 1 then
    let rate := if vt.rate < (AVG_RATE : Rat) then vt.rate + 1 else vt.rate
    { vt with rate := rate, avg := vt.avg + (vt.last - vt.avg) / rate }
  else vt

/-- The locked health-transition section of `vbp_has_poked`, for an attached
backend: compare `good` against `threshold`, set `healthy`, stamp
`health_changed` on a transition, and pick the log label. -/
def vbp_health_update (threshold good : Nat) (b : BackendHealth) (now : Rat) :
    BackendHealth × String :=
  if good ≥ threshold then
    if b.healthy then ({ b with healthy := true }, "Still healthy")
    else ({ healthy := true, health_changed := now }, "Back healthy")
  else
    if b.healthy then ({ healthy := false, health_changed := now }, "Went sick")
    else ({ b with healthy := false }, "Still sick")

/-- `vbp_has_poked`: update the average, recompute `good` from the `happy`
window, and (when a backend is attached) drive the health state machine.
The third component is the log label emitted, `none` when detached. -/
def vbp_has_poked (p : vrt_backend_probe) (vt : TargetStats)
    (be : Option BackendHealth) (now : Rat) :
    TargetStats × Option BackendHealth × Option String :=
  let vt1 := vbp_avg_update vt
  let vt2 := { vt1 with good := vbp_good vt1.happy p.window }
  match be with
  | none => (vt2, none, none)
  | some b =>
      let r := vbp_health_update p.threshold vt2.good b now
      (vt2, some r.1, some r.2)

/-- The probe spec used to refute C3: window 2 and threshold 5 are both
nonzero, so `vbp_set_defaults` leaves them alone. -/
def probeC3 : vrt_backend_probe :=
  { url := none, request := none, timeout := 1, interval := 1,
    exp_status := 200, window := 2, threshold := 5, initial := 0 }

/-- The observable outcome of the request-transmission section of
`vbp_poke` (`i = write(s, vt->req, vt->req_len); ...`): the two bitmaps it
may touch, whether `VTCP_close` ran here, and whether `vbp_poke` returned
early here. -/
structure XmitResult where
  err_xmit : Nat
  good_xmit : Nat
  closed : Bool
  returned : Bool
deriving Repr, DecidableEq

/-- The transmission section of `vbp_poke`, `i` being the value returned by
`write`: `if (i != req_len) { if (i < 0) err_xmit |= 1; close; return; }
good_xmit |= 1;`. -/
def vbp_poke_xmit (req_len i : Int) (err_xmit good_xmit : Nat) : XmitResult :=
  if i ≠ req_len then
    { err_xmit := if i < 0 then err_xmit ||| 1 else err_xmit,
      good_xmit := good_xmit, closed := true, returned := true }
  else
    { err_xmit := err_xmit, good_xmit := good_xmit ||| 1,
      closed := false, returned := false }

/-- The scheduling fields of a Target read and written by the due-branch of
the dispatcher loop in `vbp_thread`. -/
structure SchedTarget where
  due : Rat
  interval : Rat
  running : Int
deriving Repr, DecidableEq

/-- The due-branch of `vbp_thread`: the root is removed, `running = 1`,
`due = now + interval`, and the target is re-inserted. -/
def vbp_thread_pop (vt : SchedTarget) (now : Rat) : SchedTarget :=
  { vt with running := 1, due := now + vt.interval }

/-- The target used to refute C5: due at time 1, popped at time 5. -/
def schedC5 : SchedTarget := { due := 1, interval := 5, running := 0 }

/-- `vbp_start_poke` as it acts on the recorded statistics: every history
bitmap shifts left one position (64-bit) and `last` is cleared.  (It also
clears `resp_buf[0]`, which is modelled with the response buffer in the
receive-loop embedding below.) -/
def vbp_start_poke (vt : TargetStats) : TargetStats :=
  { vt with happy := vt.happy * 2 % 2 ^ 64, last := 0 }

/-- The `happy` bitmap produced by `k` iterations of the seeding loop of
`VBP_Insert`, starting from the zeroed Target made by `ALLOC_OBJ`: each
iteration runs `vbp_start_poke` (shift) and then `vt->happy |= 1`; the
interleaved `vbp_has_poked` calls do not change `happy`. -/
def vbp_seed_happy : Nat → Nat
  | 0 => 0
  | k + 1 => (vbp_seed_happy k * 2 % 2 ^ 64) ||| 1

/-- The `happy` bitmap of a freshly inserted Target: `VBP_Insert` copies the
spec, applies `vbp_set_defaults`, and runs the seeding loop `initial`
times. -/
def VBP_Insert_happy (p : vrt_backend_probe) : Nat :=
  vbp_seed_happy (vbp_set_defaults p).initial

/-- The probe spec used to refute C6 and C7: `threshold = initial = 65`
survive `vbp_set_defaults` unchanged (only `initial > threshold` or the
`~0U` sentinel are rewritten). -/
def probeC6 : vrt_backend_probe :=
  { url := none, request := none, timeout := 1, interval := 1,
    exp_status := 200, window := 8, threshold := 65, initial := 65 }

/-- One iteration of the seeding loop body of `VBP_Insert`
(`if (u) vbp_has_poked(vt); vbp_start_poke(vt); vt->happy |= 1;
vbp_has_poked(vt);`), with the backend already attached
(`vt->backend = b` is assigned before the loop). -/
def vbp_insert_iter (q : vrt_backend_probe) (now : Rat) (u : Nat)
    (s : TargetStats × BackendHealth) : TargetStats × BackendHealth :=
  let s1 := if u = 0 then s else
    let r := vbp_has_poked q s.1 (some s.2) now
    (r.1, (r.2.1).getD s.2)
  let vt1 := vbp_start_poke s1.1
  let vt2 := { vt1 with happy := vt1.happy ||| 1 }
  let r := vbp_has_poked q vt2 (some s1.2) now
  (r.1, (r.2.1).getD s1.2)

/-- The Target statistics and backend health after the first `u` iterations
of the seeding loop, starting from the zeroed Target built by `ALLOC_OBJ`. -/
def vbp_insert_state (q : vrt_backend_probe) (b0 : BackendHealth) (now : Rat) :
    Nat → TargetStats × BackendHealth
  | 0 => ({ happy := 0, last := 0, avg := 0, rate := 0, good := 0 }, b0)
  | u + 1 => vbp_insert_iter q now u (vbp_insert_state q b0 now u)

/-- The state at the moment `VBP_Insert` returns: defaults applied, the
seeding loop run `initial` times, then the final `vbp_has_poked` call made
after `b->probe = vt`. -/
def VBP_Insert_result (p : vrt_backend_probe) (b0 : BackendHealth) (now : Rat) :
    TargetStats × BackendHealth :=
  let q := vbp_set_defaults p
  let s := vbp_insert_state q b0 now q.initial
  let r := vbp_has_poked q s.1 (some s.2) now
  (r.1, (r.2.1).getD s.2)

/-- The probe spec used to refute C7: `window = 2`, `threshold = 5`,
`initial = 5`; `vbp_set_defaults` keeps all three (`initial = threshold`
after defaults). -/
def probeC7 : vrt_backend_probe :=
  { url := none, request := none, timeout := 1, interval := 1,
    exp_status := 200, window := 2, threshold := 5, initial := 5 }

/-- One happy probe cycle with round-trip time `L`, as it acts on the
averaging state: `vbp_start_poke` shifts the bitmaps and clears `last`, the
successful probe sets the newest `happy` bit and `last = now - t_start = L`,
and `vbp_has_poked` updates `rate` and `avg`. -/
def vbp_happy_cycle (q : vrt_backend_probe) (L : Rat) (vt : TargetStats) :
    TargetStats :=
  let vt1 := vbp_start_poke vt
  let vt2 := { vt1 with happy := vt1.happy ||| 1, last := L }
  (vbp_has_poked q vt2 none 0).1

/-- `k` consecutive happy probe cycles, each with the same round-trip time
`L`. -/
def vbp_happy_iter (q : vrt_backend_probe) (L : Rat) (vt : TargetStats) :
    Nat → TargetStats
  | 0 => vt
  | k + 1 => vbp_happy_cycle q L (vbp_happy_iter q L vt k)

/-- The NUL character, `'\0'`. -/
def NUL : Char := Char.ofNat 0

/-- C `isspace` in the C locale: space, `\t`, `\n`, `\v`, `\f`, `\r`. -/
def isCSpace (c : Char) : Bool :=
  c = ' ' || c = '\t' || c = '\n' || c = Char.ofNat 11 || c = Char.ofNat 12
    || c = '\r'

/-- `strchr(s, c)` followed by `*p = '\0'`: the C string truncated at the
first occurrence of `c` (unchanged when `c` does not occur). -/
def truncAt (c : Char) (s : List Char) : List Char :=
  s.takeWhile (· ≠ c)

/-- Matching of the ordinary format characters `HTTP/` by `sscanf`:
`Except.error true` is an input failure (input ran out), `Except.error
false` a matching failure (wrong character). -/
def scanLit : List Char → List Char → Except Bool (List Char)
  | [], s => Except.ok s
  | _ :: _, [] => Except.error true
  | l :: ls, c :: cs => if c = l then scanLit ls cs else Except.error false

/-- Skip the whitespace that `sscanf` conversions and blank format
characters consume. -/
def skipWs (s : List Char) : List Char :=
  s.dropWhile (fun c => isCSpace c)

/-- A hexadecimal digit, as C `isxdigit`. -/
def isCHexDigit (c : Char) : Bool :=
  c.isDigit || ('a' ≤ c.toLower && c.toLower ≤ 'f')

/-- The mantissa of a `%f` number over a digit class `isDig` (decimal
digits, or hexadecimal digits after `0x`):
`digits+ ('.' digits*)? | '.' digits+`. -/
def scanMantissa (isDig : Char → Bool) (s : List Char) : Option (List Char) :=
  let intPart := s.takeWhile isDig
  let r := s.dropWhile isDig
  match r with
  | '.' :: r2 =>
      let fracPart := r2.takeWhile isDig
      if intPart.isEmpty && fracPart.isEmpty then none
      else some (r2.dropWhile isDig)
  | _ => if intPart.isEmpty then none else some r

/-- An optional exponent after the mantissa, marked `e`/`E` (decimal) or
`p`/`P` (hexadecimal), with decimal digits: `([eE] [+-]? digits+)?`;
consumed only when complete (`strtod` takes the longest valid prefix). -/
def scanExp (m1 m2 : Char) (s : List Char) : List Char :=
  match s with
  | c :: cs =>
      if c = m1 || c = m2 then
        let body := match cs with
          | d :: ds => if d = '+' || d = '-' then ds else cs
          | [] => cs
        if (body.takeWhile Char.isDigit).isEmpty then s
        else body.dropWhile Char.isDigit
      else s
  | [] => s

/-- Case-insensitive match of an ASCII keyword (`w` given in lowercase), as
the `strtod` forms `inf`, `infinity`, `nan` require. -/
def scanWordCI : List Char → List Char → Option (List Char)
  | [], s => some s
  | _ :: _, [] => none
  | w :: ws, c :: cs => if c.toLower = w then scanWordCI ws cs else none

/-- A character of a NaN payload `n-char-seq`: letters, digits and
underscore. -/
def isNanSeqChar (c : Char) : Bool :=
  c.isAlphanum || c = '_'

/-- The optional parenthesized payload after `nan`; consumed only when the
closing parenthesis is present (otherwise `strtod` keeps just `nan`). -/
def scanNanPayload (s : List Char) : List Char :=
  match s with
  | '(' :: r =>
      match r.dropWhile isNanSeqChar with
      | ')' :: r2 => r2
      | _ => s
  | _ => s

/-- The `%*f` conversion body (after its whitespace skip), with the full
C99 `strtod` grammar: an optional sign, then one of `infinity`/`inf`
(case-insensitive), `nan` with an optional payload, a hexadecimal mantissa
after `0x`/`0X` with an optional `p` binary exponent, or a decimal mantissa
with an optional `e` exponent.  Returns the remaining input, `none` on
matching failure.  (Following `strtod`, an incomplete suffix — a bare
exponent marker, `0x` with no hex digit, an unclosed NaN payload — is left
unconsumed; for this format that yields the same match counts as glibc
`sscanf`, because the leftover then begins with a letter or parenthesis on
which the following `%u` fails, just as the whole `%f` conversion fails
in C.) -/
def scanFloat (s : List Char) : Option (List Char) :=
  let s1 := match s with
    | c :: cs => if c = '+' || c = '-' then cs else s
    | [] => s
  match scanWordCI ['i', 'n', 'f', 'i', 'n', 'i', 't', 'y'] s1 with
  | some r => some r
  | none =>
    match scanWordCI ['i', 'n', 'f'] s1 with
    | some r => some r
    | none =>
      match scanWordCI ['n', 'a', 'n'] s1 with
      | some r => some (scanNanPayload r)
      | none =>
        let dec := match scanMantissa Char.isDigit s1 with
          | none => none
          | some r => some (scanExp 'e' 'E' r)
        match s1 with
        | '0' :: x :: r =>
            if x = 'x' || x = 'X' then
              match scanMantissa isCHexDigit r with
              | some r2 => some (scanExp 'p' 'P' r2)
              | none => dec
            else dec
        | _ => dec

/-- The numeric value of a digit string, most significant first. -/
def digitsVal (ds : List Char) : Nat :=
  ds.foldl (fun acc c => acc * 10 + (c.toNat - 48)) 0

/-- The `%u` conversion: skip whitespace, then `strtoul` syntax — an
optional sign and at least one digit; a `-` value wraps modulo `2^32` as C
unsigned conversion does. -/
def scanU (s : List Char) : Option (Nat × List Char) :=
  let s1 := skipWs s
  let signed := match s1 with
    | c :: cs =>
        if c = '-' then (true, cs)
        else if c = '+' then (false, cs) else (false, s1)
    | [] => (false, s1)
  let ds := signed.2.takeWhile Char.isDigit
  if ds.isEmpty then none
  else
    let v := digitsVal ds % 2 ^ 32
    some (if signed.1 then (2 ^ 32 - v) % 2 ^ 32 else v,
          signed.2.dropWhile Char.isDigit)

/-- The `%s` conversion: skip whitespace, then at least one
non-whitespace character. -/
def scanStr (s : List Char) : Option (List Char × List Char) :=
  let s1 := skipWs s
  let tok := s1.takeWhile (fun c => !isCSpace c)
  if tok.isEmpty then none
  else some (tok, s1.dropWhile (fun c => !isCSpace c))

/-- `sscanf(resp_buf, "HTTP/%*f %u %s", &resp, buf)`: the number of assigned
conversions (`-1` for an input failure before the first conversion
completes), paired with the value assigned to `resp` (`none` when `%u` did
not complete; in C `resp` is then left uninitialized and unread). -/
def vbp_sscanf (s : List Char) : Int × Option Nat :=
  match scanLit ['H', 'T', 'T', 'P', '/'] s with
  | Except.error true => (-1, none)
  | Except.error false => (0, none)
  | Except.ok s1 =>
      let s2 := skipWs s1
      if s2.isEmpty then (-1, none)
      else
        match scanFloat s2 with
        | none => (0, none)
        | some s3 =>
            match scanU s3 with
            | none => (0, none)
            | some vr =>
                match scanStr vr.2 with
                | none => (1, some vr.1)
                | some _ => (2, some vr.1)

/-- The response-classification tail of `vbp_poke` (after a good receive):
force `resp_buf[127] = '\0'`, truncate the buffer's C string at the first
CR and then at the first LF, run the `sscanf`, and set the newest `happy`
bit exactly when the match count is 1 or 2 and the parsed status equals
`exp_status`.  `buf` is the 128-byte `resp_buf` content. -/
def vbp_poke_classify (exp_status : Nat) (buf : List Char) (happy : Nat) :
    Nat :=
  let s0 := (buf.set 127 NUL).takeWhile (· ≠ NUL)
  let r := vbp_sscanf (truncAt '\n' (truncAt '\r' s0))
  if (r.1 = 1 ∨ r.1 = 2) ∧ r.2 = some exp_status then happy ||| 1 else happy

/-- The buffer-filling behaviour of the receive loop of `vbp_poke`
(`if (rlen < sizeof vt->resp_buf) i = read(s, vt->resp_buf + rlen,
sizeof vt->resp_buf - rlen); else i = read(s, buf, sizeof buf);`).
While `rlen < 128` each `read` is asked for `128 - rlen` bytes and appends
what it returns to `resp_buf`; afterwards reads drain into the 8192-byte
scratch buffer.  `σ` is the oracle choosing how many bytes the kernel
returns at each step (clamped to `[1, min(requested, remaining)]`); the
loop ends when `read` returns 0 at end of stream.  `fuel` bounds the
number of iterations; every iteration consumes at least one stream byte,
so `fuel = stream.length` is always enough. -/
def vbp_read_go (σ : Nat → Nat) : Nat → Nat → List Char → List Char → List Char
  | 0, _, _, buf => buf
  | fuel + 1, step, stream, buf =>
      match stream with
      | [] => buf
      | x :: xs =>
          let req := if buf.length < 128 then 128 - buf.length else 8192
          let c := max 1 (min (σ step) (min req (x :: xs).length))
          if buf.length < 128 then
            vbp_read_go σ fuel (step + 1) ((x :: xs).drop c)
              (buf ++ (x :: xs).take c)
          else
            vbp_read_go σ fuel (step + 1) ((x :: xs).drop c) buf

/-- The bytes the receive loop writes into `resp_buf` for a full response
`stream` under read-chunking oracle `σ`. -/
def vbp_read_loop (σ : Nat → Nat) (stream : List Char) : List Char :=
  vbp_read_go σ stream.length 0 stream []

/-- The 128-byte `resp_buf` content after the receive loop: the bytes read
this probe overwrite the front, while the tail keeps the previous buffer
content `stale` (`vbp_start_poke` clears only `resp_buf[0]`, and `vbp_poke`
writes only the bytes it reads). -/
def vbp_resp_buf (stale : List Char) (σ : Nat → Nat) (stream : List Char) :
    List Char :=
  let written := vbp_read_loop σ stream
  written ++ stale.drop written.length

/-- The newest happy bit produced by the receive-and-classify path of
`vbp_poke`: zero bytes received is an early return with no bits set;
otherwise the buffer is NUL-forced at index 127 and classified. -/
def vbp_poke_recv_happy (exp_status : Nat) (stale : List Char)
    (σ : Nat → Nat) (stream : List Char) (happy : Nat) : Nat :=
  if stream.length = 0 then happy
  else vbp_poke_classify exp_status (vbp_resp_buf stale σ stream) happy

theorem popcount_zero : popcount 0 = 0 := by
  unfold popcount; simp

theorem popcount_two_mul_add (m b : Nat) (hb : b < 2) :
    popcount (2 * m + b) = b + popcount m := by
  rcases Nat.eq_zero_or_pos (2 * m + b) with h0 | hpos
  · have hm : m = 0 := by omega
    have hb0 : b = 0 := by omega
    subst hm; subst hb0; simp [popcount_zero]
  · rw [popcount]
    have h1 : (2 * m + b) % 2 = b := by omega
    have h2 : (2 * m + b) / 2 = m := by omega
    simp only [h1, h2]
    have : ¬ (2 * m + b = 0) := by omega
    simp [this]

theorem popcount_two_pow_sub_one (k : Nat) : popcount (2 ^ k - 1) = k := by
  induction k with
  | zero => simp [popcount_zero]
  | succ k ih =>
      have h : 2 ^ (k + 1) - 1 = 2 * (2 ^ k - 1) + 1 := by
        have hk : 1 ≤ 2 ^ k := Nat.one_le_two_pow
        rw [pow_succ]; omega
      rw [h, popcount_two_mul_add _ _ (by omega), ih]; omega

theorem vbp_good_loop_eq (w : Nat) : ∀ u j,
    vbp_good_loop u j w = j + popcount (u % 2 ^ w) := by
  induction w with
  | zero => intro u j; simp [vbp_good_loop, Nat.mod_one, popcount_zero]
  | succ w ih =>
      intro u j
      rw [vbp_good_loop, ih]
      have h1 : u / 2 % 2 ^ w = u % 2 ^ (w + 1) / 2 := by
        have h : 2 ^ (w + 1) = 2 * 2 ^ w := by ring
        rw [h, Nat.mod_mul_right_div_self]
      have h2 : u % 2 = u % 2 ^ (w + 1) % 2 :=
        (Nat.mod_mod_of_dvd u (dvd_pow_self 2 (Nat.succ_ne_zero w))).symm
      have hmod : u % 2 ^ (w + 1) = 2 * (u / 2 % 2 ^ w) + u % 2 := by
        rw [h1, h2]; omega
      rw [hmod, popcount_two_mul_add _ _ (Nat.mod_lt u (by omega))]
      rcases Nat.mod_two_eq_zero_or_one u with h | h <;> simp [h] <;> omega

theorem vbp_good_eq (happy w : Nat) : vbp_good happy w = popcount (happy % 2 ^ w) := by
  rw [vbp_good, vbp_good_loop_eq, Nat.zero_add]

theorem vbp_avg_update_happy (vt : TargetStats) :
    (vbp_avg_update vt).happy = vt.happy := by
  unfold vbp_avg_update; split <;> rfl

theorem vbp_has_poked_fst (p : vrt_backend_probe) (vt : TargetStats)
    (be : Option BackendHealth) (now : Rat) :
    (vbp_has_poked p vt be now).1
      = { vbp_avg_update vt with good := vbp_good vt.happy p.window } := by
  unfold vbp_has_poked
  cases be <;> simp [vbp_avg_update_happy]

/-- C1: after any call to `vbp_has_poked`, the `good` field equals the
popcount of the low `window` bits of the `happy` bitmap,
`good = popcount (happy &&& (2 ^ window - 1))`, for every value of `happy`
and every `window ∈ [1, 64]`. -/
theorem c1_good_is_window_popcount (p : vrt_backend_probe) (vt : TargetStats)
    (be : Option BackendHealth) (now : Rat)
    (_hw1 : 1 ≤ p.window) (_hw2 : p.window ≤ 64) :
    ((vbp_has_poked p vt be now).1).good
      = popcount (vt.happy &&& (2 ^ p.window - 1)) := by
  rw [vbp_has_poked_fst, Nat.and_pow_two_sub_one_eq_mod]
  exact vbp_good_eq vt.happy p.window

/-- Witness for C1 at a concrete state: `happy = 0xDEAD`, `window = 8`. -/
theorem c1_good_is_window_popcount_witness :
    1 ≤ 8 ∧ (8 : Nat) ≤ 64 ∧
    ((vbp_has_poked
        { url := none, request := none, timeout := 2, interval := 5,
          exp_status := 200, window := 8, threshold := 3, initial := 2 }
        { happy := 57005, last := 0, avg := 0, rate := 0, good := 0 }
        none 0).1).good
      = popcount (57005 &&& (2 ^ 8 - 1)) := by
  refine ⟨by decide, by decide, ?_⟩
  exact c1_good_is_window_popcount _ _ none 0 (by decide) (by decide)

/-- C2: with an attached backend, `vbp_has_poked` sets `healthy` to true
exactly when `good ≥ threshold` and to false otherwise, and stamps
`health_changed` with the current time precisely when the `healthy` flag
changes value; otherwise `health_changed` is untouched. -/
theorem c2_health_state_machine (p : vrt_backend_probe) (vt : TargetStats)
    (b : BackendHealth) (now : Rat) :
    (vbp_has_poked p vt (some b) now).2.1
      = some
        { healthy := decide (p.threshold ≤ (vbp_has_poked p vt (some b) now).1.good),
          health_changed :=
            if decide (p.threshold ≤ (vbp_has_poked p vt (some b) now).1.good)
                = b.healthy
            then b.health_changed else now } := by
  unfold vbp_has_poked vbp_health_update
  cases hb : b.healthy <;>
    by_cases hg : p.threshold ≤ vbp_good (vbp_avg_update vt).happy p.window <;>
      simp [hb, hg, ge_iff_le]

/-- C3 counterexample: for a spec with `window = 2`, `threshold = 5`,
`vbp_set_defaults` does not clamp `threshold` into `[0, window]`; the
result still has `threshold > window`. -/
theorem c3_counterexample :
    ¬ ((vbp_set_defaults probeC3).threshold ≤ (vbp_set_defaults probeC3).window) := by
  decide

/-- C3 amended: `vbp_set_defaults` does guarantee `initial ≤ threshold`,
but it never alters a nonzero `window` or `threshold`, so a configuration
with `threshold > window` is NOT clamped into range. -/
theorem vbp_def_timeout_fields (p : vrt_backend_probe) :
    (vbp_def_timeout p).window = p.window ∧
    (vbp_def_timeout p).threshold = p.threshold ∧
    (vbp_def_timeout p).initial = p.initial := by
  unfold vbp_def_timeout; split <;> exact ⟨rfl, rfl, rfl⟩

theorem vbp_def_interval_fields (p : vrt_backend_probe) :
    (vbp_def_interval p).window = p.window ∧
    (vbp_def_interval p).threshold = p.threshold ∧
    (vbp_def_interval p).initial = p.initial := by
  unfold vbp_def_interval; split <;> exact ⟨rfl, rfl, rfl⟩

theorem vbp_def_window_fields (p : vrt_backend_probe) :
    (vbp_def_window p).threshold = p.threshold ∧
    (vbp_def_window p).initial = p.initial := by
  unfold vbp_def_window; split <;> exact ⟨rfl, rfl⟩

theorem vbp_def_window_keeps (p : vrt_backend_probe) (h : p.window ≠ 0) :
    (vbp_def_window p).window = p.window := by
  unfold vbp_def_window; rw [if_neg h]

theorem vbp_def_threshold_fields (p : vrt_backend_probe) :
    (vbp_def_threshold p).window = p.window ∧
    (vbp_def_threshold p).initial = p.initial := by
  unfold vbp_def_threshold; split <;> exact ⟨rfl, rfl⟩

theorem vbp_def_threshold_keeps (p : vrt_backend_probe) (h : p.threshold ≠ 0) :
    (vbp_def_threshold p).threshold = p.threshold := by
  unfold vbp_def_threshold; rw [if_neg h]

theorem vbp_def_status_fields (p : vrt_backend_probe) :
    (vbp_def_status p).window = p.window ∧
    (vbp_def_status p).threshold = p.threshold ∧
    (vbp_def_status p).initial = p.initial := by
  unfold vbp_def_status; split <;> exact ⟨rfl, rfl, rfl⟩

theorem vbp_def_sentinel_fields (p : vrt_backend_probe) :
    (vbp_def_sentinel p).window = p.window ∧
    (vbp_def_sentinel p).threshold = p.threshold := by
  unfold vbp_def_sentinel; split <;> exact ⟨rfl, rfl⟩

theorem vbp_def_clamp_fields (p : vrt_backend_probe) :
    (vbp_def_clamp p).window = p.window ∧
    (vbp_def_clamp p).threshold = p.threshold := by
  unfold vbp_def_clamp; split <;> exact ⟨rfl, rfl⟩

theorem vbp_def_clamp_le (p : vrt_backend_probe) :
    (vbp_def_clamp p).initial ≤ (vbp_def_clamp p).threshold := by
  unfold vbp_def_clamp; split
  · exact le_refl _
  · omega

theorem c3_amended_defaults (p : vrt_backend_probe) :
    (vbp_set_defaults p).initial ≤ (vbp_set_defaults p).threshold ∧
    (p.window ≠ 0 → (vbp_set_defaults p).window = p.window) ∧
    (p.threshold ≠ 0 → (vbp_set_defaults p).threshold = p.threshold) := by
  refine ⟨vbp_def_clamp_le _, ?_, ?_⟩
  · intro hw
    have hiw : (vbp_def_interval (vbp_def_timeout p)).window = p.window := by
      rw [(vbp_def_interval_fields _).1, (vbp_def_timeout_fields _).1]
    unfold vbp_set_defaults
    rw [(vbp_def_clamp_fields _).1, (vbp_def_sentinel_fields _).1,
        (vbp_def_status_fields _).1, (vbp_def_threshold_fields _).1,
        vbp_def_window_keeps _ (by rw [hiw]; exact hw), hiw]
  · intro ht
    have hit : (vbp_def_window (vbp_def_interval (vbp_def_timeout p))).threshold
        = p.threshold := by
      rw [(vbp_def_window_fields _).1, (vbp_def_interval_fields _).2.1,
          (vbp_def_timeout_fields _).2.1]
    unfold vbp_set_defaults
    rw [(vbp_def_clamp_fields _).2, (vbp_def_sentinel_fields _).2,
        (vbp_def_status_fields _).2.1,
        vbp_def_threshold_keeps _ (by rw [hit]; exact ht), hit]

/-- Witness for C3's amended claim at the counterexample spec. -/
theorem c3_amended_defaults_witness :
    (vbp_set_defaults probeC3).initial ≤ (vbp_set_defaults probeC3).threshold ∧
    (vbp_set_defaults probeC3).window = probeC3.window := by
  exact ⟨(c3_amended_defaults probeC3).1,
         (c3_amended_defaults probeC3).2.1 (by decide)⟩

/-- C4 counterexample: a short write of 5 of 10 request bytes closes the
socket and aborts the probe, but does NOT set the `err_xmit` bit (the code
sets it only when `write` returns a negative value), contradicting the
claim that every short transfer sets `err_xmit`. -/
theorem c4_counterexample :
    (vbp_poke_xmit 10 5 0 0).err_xmit &&& 1 = 0 ∧
    (vbp_poke_xmit 10 5 0 0).good_xmit &&& 1 = 0 ∧
    (vbp_poke_xmit 10 5 0 0).closed = true ∧
    (vbp_poke_xmit 10 5 0 0).returned = true := by
  decide

/-- C4 amended: any write outcome other than exactly `req_len` bytes closes
the socket and returns without setting `good_xmit`; `err_xmit` is set only
when `write` returned a negative value (a short non-negative write sets
neither bit).  `good_xmit` is set exactly when all `req_len` bytes were
written in the single call, and then the probe continues. -/
theorem c4_amended_xmit (req_len i : Int) (e g : Nat) :
    (i ≠ req_len →
      (vbp_poke_xmit req_len i e g).returned = true ∧
      (vbp_poke_xmit req_len i e g).closed = true ∧
      (vbp_poke_xmit req_len i e g).good_xmit = g ∧
      (vbp_poke_xmit req_len i e g).err_xmit
        = (if i < 0 then e ||| 1 else e)) ∧
    (i = req_len →
      (vbp_poke_xmit req_len i e g).good_xmit = g ||| 1 ∧
      (vbp_poke_xmit req_len i e g).err_xmit = e ∧
      (vbp_poke_xmit req_len i e g).returned = false) := by
  unfold vbp_poke_xmit
  constructor <;> intro h <;> simp [h]

/-- Witness for C4's amended claim at the short write `i = 5`, `req_len = 10`. -/
theorem c4_amended_xmit_witness :
    ((5 : Int) ≠ 10) ∧
    ((vbp_poke_xmit 10 5 0 0).returned = true ∧
     (vbp_poke_xmit 10 5 0 0).closed = true ∧
     (vbp_poke_xmit 10 5 0 0).good_xmit = 0 ∧
     (vbp_poke_xmit 10 5 0 0).err_xmit = (if (5 : Int) < 0 then 0 ||| 1 else 0)) :=
  ⟨by decide, (c4_amended_xmit 10 5 0 0).1 (by decide)⟩

/-- C5 counterexample: a target due at 1 with interval 5 popped at `now = 5`
is re-inserted with `due = 10`, not `old_due + interval = 6`: the code sets
`due = now + interval`, not `due += interval`. -/
theorem c5_counterexample :
    schedC5.due ≤ 5 ∧
    (vbp_thread_pop schedC5 5).due ≠ schedC5.due + schedC5.interval := by
  refine ⟨by norm_num [schedC5], ?_⟩
  simp only [vbp_thread_pop, schedC5]
  norm_num

/-- C5 amended: popping a due target sets `running = 1` and re-inserts it
with `due = now + interval`; since `due ≤ now` this is at least
`old_due + interval`, with equality exactly when the pop happens at the due
time. -/
theorem c5_amended_dispatch (vt : SchedTarget) (now : Rat) (h : vt.due ≤ now) :
    (vbp_thread_pop vt now).running = 1 ∧
    (vbp_thread_pop vt now).due = now + vt.interval ∧
    vt.due + vt.interval ≤ (vbp_thread_pop vt now).due := by
  refine ⟨rfl, rfl, ?_⟩
  show vt.due + vt.interval ≤ now + vt.interval
  linarith

/-- Witness for C5's amended claim at `schedC5`, popped at time 5. -/
theorem c5_amended_dispatch_witness :
    schedC5.due ≤ 5 ∧
    ((vbp_thread_pop schedC5 5).running = 1 ∧
     (vbp_thread_pop schedC5 5).due = 5 + schedC5.interval ∧
     schedC5.due + schedC5.interval ≤ (vbp_thread_pop schedC5 5).due) :=
  ⟨by norm_num [schedC5], c5_amended_dispatch schedC5 5 (by norm_num [schedC5])⟩

theorem two_mul_lor_one (n : Nat) : (2 * n) ||| 1 = 2 * n + 1 := by
  apply Nat.eq_of_testBit_eq
  intro i
  rw [Nat.testBit_lor]
  cases i with
  | zero => simp [Nat.testBit_zero, Nat.mul_add_mod]
  | succ j =>
      have h1 : (2 * n + 1) / 2 = n := by omega
      simp [Nat.testBit_succ, h1]

theorem lor_one_mod_two (n : Nat) : (n ||| 1) % 2 = 1 := by
  have h := Nat.testBit_lor n 1 0
  simp only [Nat.testBit_zero] at h
  simpa using h

theorem vbp_seed_happy_eq (k : Nat) (hk : k ≤ 64) :
    vbp_seed_happy k = 2 ^ k - 1 := by
  induction k with
  | zero => rfl
  | succ k ih =>
      rw [vbp_seed_happy, ih (by omega)]
      have h1 : 1 ≤ 2 ^ k := Nat.one_le_two_pow
      have h2 : (2 ^ k - 1) * 2 = 2 * (2 ^ k - 1) := by ring
      have hle : 2 ^ (k + 1) ≤ 2 ^ 64 := Nat.pow_le_pow_right (by omega) hk
      have hss : 2 ^ (k + 1) = 2 ^ k * 2 := pow_succ 2 k
      have hlt : 2 * (2 ^ k - 1) < 2 ^ 64 := by omega
      rw [h2, Nat.mod_eq_of_lt hlt, two_mul_lor_one]
      omega

/-- C6 counterexample: with post-default `initial = 65`, the 64-bit `happy`
bitmap can hold only 64 ones, so the seeded bitmap has popcount 64 within
its low `initial + 1` positions, not `initial`. -/
theorem c6_counterexample :
    (vbp_set_defaults probeC6).initial = 65 ∧
    popcount (VBP_Insert_happy probeC6
        &&& (2 ^ ((vbp_set_defaults probeC6).initial + 1) - 1))
      ≠ (vbp_set_defaults probeC6).initial := by
  have hinit : (vbp_set_defaults probeC6).initial = 65 := by decide
  refine ⟨hinit, ?_⟩
  have hseed : VBP_Insert_happy probeC6 = 2 ^ 64 - 1 := by
    have h64 : vbp_seed_happy 64 = 2 ^ 64 - 1 := vbp_seed_happy_eq 64 (le_refl 64)
    have h65 : vbp_seed_happy 65 = (vbp_seed_happy 64 * 2 % 2 ^ 64) ||| 1 := rfl
    have hmul : ((2 : Nat) ^ 64 - 1) * 2 % 2 ^ 64 = 2 * (2 ^ 63 - 1) := by norm_num
    rw [VBP_Insert_happy, hinit, h65, h64, hmul, two_mul_lor_one]
    norm_num
  rw [hseed, hinit, show (65 + 1 : Nat) = 66 from rfl]
  have hmask : ((2 : Nat) ^ 64 - 1) &&& (2 ^ 66 - 1) = 2 ^ 64 - 1 := by
    rw [Nat.and_pow_two_sub_one_eq_mod]
    exact Nat.mod_eq_of_lt (by norm_num)
  rw [hmask, popcount_two_pow_sub_one]
  omega

/-- C6 amended: whenever the post-default `initial` is at most 64, the
seeding loop of `VBP_Insert` leaves exactly `initial` one bits in the low
`initial + 1` positions of `happy`. -/
theorem c6_amended_seed (p : vrt_backend_probe)
    (h : (vbp_set_defaults p).initial ≤ 64) :
    popcount (VBP_Insert_happy p
        &&& (2 ^ ((vbp_set_defaults p).initial + 1) - 1))
      = (vbp_set_defaults p).initial := by
  rw [VBP_Insert_happy, Nat.and_pow_two_sub_one_eq_mod, vbp_seed_happy_eq _ h,
      Nat.mod_eq_of_lt, popcount_two_pow_sub_one]
  have h1 : 1 ≤ 2 ^ (vbp_set_defaults p).initial := Nat.one_le_two_pow
  have h2 : (2 : Nat) ^ ((vbp_set_defaults p).initial + 1)
      = 2 ^ (vbp_set_defaults p).initial * 2 := pow_succ 2 _
  omega

/-- Witness for C6's amended claim at the default spec (`initial = 2`). -/
theorem c6_amended_seed_witness :
    (vbp_set_defaults
      { url := none, request := none, timeout := 1, interval := 1,
        exp_status := 200, window := 8, threshold := 3, initial := 2 }).initial ≤ 64 ∧
    popcount (VBP_Insert_happy
      { url := none, request := none, timeout := 1, interval := 1,
        exp_status := 200, window := 8, threshold := 3, initial := 2 }
        &&& (2 ^ ((vbp_set_defaults
      { url := none, request := none, timeout := 1, interval := 1,
        exp_status := 200, window := 8, threshold := 3, initial := 2 }).initial + 1) - 1))
      = (vbp_set_defaults
      { url := none, request := none, timeout := 1, interval := 1,
        exp_status := 200, window := 8, threshold := 3, initial := 2 }).initial :=
  ⟨by decide, c6_amended_seed _ (by decide)⟩

theorem vbp_has_poked_happy (p : vrt_backend_probe) (vt : TargetStats)
    (be : Option BackendHealth) (now : Rat) :
    (vbp_has_poked p vt be now).1.happy = vt.happy := by
  rw [vbp_has_poked_fst]
  exact vbp_avg_update_happy vt

theorem vbp_health_update_healthy (t g : Nat) (b : BackendHealth) (now : Rat) :
    (vbp_health_update t g b now).1.healthy = decide (t ≤ g) := by
  unfold vbp_health_update
  by_cases hg : t ≤ g <;> cases hb : b.healthy <;> simp [hg, hb, ge_iff_le]

theorem vbp_has_poked_backend (p : vrt_backend_probe) (vt : TargetStats)
    (b : BackendHealth) (now : Rat) :
    (vbp_has_poked p vt (some b) now).2.1
      = some (vbp_health_update p.threshold (vbp_good vt.happy p.window) b now).1 := by
  unfold vbp_has_poked
  simp [vbp_avg_update_happy]

theorem vbp_insert_iter_happy (q : vrt_backend_probe) (now : Rat) (u : Nat)
    (s : TargetStats × BackendHealth) :
    (vbp_insert_iter q now u s).1.happy = (s.1.happy * 2 % 2 ^ 64) ||| 1 := by
  unfold vbp_insert_iter
  by_cases hu : u = 0 <;>
    simp [hu, vbp_has_poked_happy, vbp_start_poke]

theorem vbp_insert_state_happy (q : vrt_backend_probe) (b0 : BackendHealth)
    (now : Rat) : ∀ u, (vbp_insert_state q b0 now u).1.happy = vbp_seed_happy u := by
  intro u
  induction u with
  | zero => rfl
  | succ u ih => rw [vbp_insert_state, vbp_insert_iter_happy, ih, vbp_seed_happy]

theorem VBP_Insert_result_healthy (p : vrt_backend_probe) (b0 : BackendHealth)
    (now : Rat) :
    (VBP_Insert_result p b0 now).2.healthy
      = decide ((vbp_set_defaults p).threshold
          ≤ vbp_good (vbp_seed_happy (vbp_set_defaults p).initial)
              (vbp_set_defaults p).window) := by
  unfold VBP_Insert_result
  simp [vbp_has_poked_backend, vbp_insert_state_happy, vbp_health_update_healthy]

/-- C7 counterexample: a spec with post-default `initial = threshold = 5`
but `window = 2` yields `good = 2 < 5` at the final `vbp_has_poked` of
`VBP_Insert`, so the backend is NOT healthy when `VBP_Insert` returns. -/
theorem c7_counterexample :
    (vbp_set_defaults probeC7).initial = (vbp_set_defaults probeC7).threshold ∧
    (VBP_Insert_result probeC7 { healthy := false, health_changed := 0 } 0).2.healthy
      = false := by
  refine ⟨by decide, ?_⟩
  rw [VBP_Insert_result_healthy]
  decide

/-- C7 amended: if additionally the post-default parameters satisfy
`threshold ≤ window ≤ 64`, then a post-default `initial = threshold` makes
the backend healthy the moment `VBP_Insert` returns. -/
theorem c7_amended_insert (p : vrt_backend_probe) (b0 : BackendHealth) (now : Rat)
    (hit : (vbp_set_defaults p).initial = (vbp_set_defaults p).threshold)
    (htw : (vbp_set_defaults p).threshold ≤ (vbp_set_defaults p).window)
    (hw64 : (vbp_set_defaults p).window ≤ 64) :
    (VBP_Insert_result p b0 now).2.healthy = true := by
  rw [VBP_Insert_result_healthy, hit]
  have ht64 : (vbp_set_defaults p).threshold ≤ 64 := le_trans htw hw64
  rw [vbp_seed_happy_eq _ ht64, vbp_good_eq]
  have hpow : (2 : Nat) ^ (vbp_set_defaults p).threshold
      ≤ 2 ^ (vbp_set_defaults p).window := Nat.pow_le_pow_right (by omega) htw
  have h1 : 1 ≤ (2 : Nat) ^ (vbp_set_defaults p).threshold := Nat.one_le_two_pow
  rw [Nat.mod_eq_of_lt (by omega), popcount_two_pow_sub_one]
  simp

/-- Witness for C7's amended claim: defaults with `initial = threshold = 3`,
`window = 8`. -/
theorem c7_amended_insert_witness :
    (vbp_set_defaults
        { url := none, request := none, timeout := 1, interval := 1,
          exp_status := 200, window := 8, threshold := 3, initial := 3 }).initial
      = (vbp_set_defaults
        { url := none, request := none, timeout := 1, interval := 1,
          exp_status := 200, window := 8, threshold := 3, initial := 3 }).threshold ∧
    (VBP_Insert_result
        { url := none, request := none, timeout := 1, interval := 1,
          exp_status := 200, window := 8, threshold := 3, initial := 3 }
        { healthy := false, health_changed := 0 } 0).2.healthy = true :=
  ⟨by decide,
   c7_amended_insert _ _ 0 (by decide) (by decide) (by decide)⟩

theorem lor_one_and_one (n : Nat) : (n ||| 1) &&& 1 = 1 := by
  rw [Nat.and_one_is_mod]
  exact lor_one_mod_two n

theorem vbp_happy_cycle_rate_avg (q : vrt_backend_probe) (L : Rat)
    (vt : TargetStats) :
    (vbp_happy_cycle q L vt).rate
      = (if vt.rate < (AVG_RATE : Nat) then vt.rate + 1 else vt.rate) ∧
    (vbp_happy_cycle q L vt).avg
      = vt.avg + (L - vt.avg)
          / (if vt.rate < (AVG_RATE : Nat) then vt.rate + 1 else vt.rate) := by
  constructor <;>
  · unfold vbp_happy_cycle
    rw [vbp_has_poked_fst]
    simp [vbp_avg_update, vbp_start_poke, lor_one_and_one]

/-- The single-step algebra of `avg += (last - avg) / rate` with
`rate = min(rate + 1, AVG_RATE)`: the new average lands between the old
one and `L`, strictly closer whenever they differ. -/
theorem vbp_avg_step_key (r a L : Rat) (hr : 0 ≤ r) :
    1 ≤ (if r < (AVG_RATE : Nat) then r + 1 else r) ∧
    (a = L → a + (L - a) / (if r < (AVG_RATE : Nat) then r + 1 else r) = L) ∧
    (a ≠ L → |a + (L - a) / (if r < (AVG_RATE : Nat) then r + 1 else r) - L|
        < |a - L|) ∧
    (a < L → a < a + (L - a) / (if r < (AVG_RATE : Nat) then r + 1 else r) ∧
        a + (L - a) / (if r < (AVG_RATE : Nat) then r + 1 else r) ≤ L) ∧
    (L < a → a + (L - a) / (if r < (AVG_RATE : Nat) then r + 1 else r) < a ∧
        L ≤ a + (L - a) / (if r < (AVG_RATE : Nat) then r + 1 else r)) := by
  have hA : ((AVG_RATE : Nat) : Rat) = 4 := by norm_num [AVG_RATE]
  set r' := (if r < (AVG_RATE : Nat) then r + 1 else r) with hr'
  have hr1 : 1 ≤ r' := by
    rw [hr']; split
    · linarith
    · rw [hA] at *; linarith [not_lt.mp (by assumption : ¬ r < (4 : Rat))]
  have hrpos : 0 < r' := lt_of_lt_of_le one_pos hr1
  have key : a + (L - a) / r' - L = (a - L) * (1 - 1 / r') := by
    field_simp
    ring
  have hinv : 0 < 1 / r' := by positivity
  have hfac0 : 0 ≤ 1 - 1 / r' := by
    have h1 : 1 / r' ≤ 1 := by rw [div_le_one hrpos]; exact hr1
    linarith
  have hfac1 : 1 - 1 / r' < 1 := by linarith
  refine ⟨hr1, ?_, ?_, ?_, ?_⟩
  · intro h; rw [h]; simp
  · intro h
    have habs : 0 < |a - L| := abs_pos.mpr (sub_ne_zero.mpr h)
    calc |a + (L - a) / r' - L| = |a - L| * |1 - 1 / r'| := by rw [key, abs_mul]
      _ = |a - L| * (1 - 1 / r') := by rw [abs_of_nonneg hfac0]
      _ < |a - L| * 1 := by exact mul_lt_mul_of_pos_left hfac1 habs
      _ = |a - L| := mul_one _
  · intro h
    constructor
    · have : 0 < (L - a) / r' := div_pos (by linarith) hrpos
      linarith
    · nlinarith [key]
  · intro h
    constructor
    · have : (L - a) / r' < 0 := div_neg_of_neg_of_pos (by linarith) hrpos
      linarith
    · nlinarith [key]

theorem vbp_happy_iter_rate_nonneg (q : vrt_backend_probe) (L : Rat)
    (vt : TargetStats) (hr : 0 ≤ vt.rate) :
    ∀ k, 0 ≤ (vbp_happy_iter q L vt k).rate := by
  intro k
  induction k with
  | zero => exact hr
  | succ k ih =>
      rw [vbp_happy_iter, (vbp_happy_cycle_rate_avg q L _).1]
      split <;> linarith

/-- C9: across consecutive happy probes reporting the same round-trip time
`L`, the `avg` sequence produced by `vbp_has_poked` is monotone in the
direction of `L`, stays on `L` once reached, and every step strictly
shrinks the distance to `L` whenever `avg ≠ L`.  `rate` starts at 0 in the
zeroed Target, hence the `0 ≤ rate` hypothesis. -/
theorem c9_avg_monotone_convergence (q : vrt_backend_probe) (L : Rat)
    (vt : TargetStats) (hr : 0 ≤ vt.rate) (k : Nat) :
    ((vbp_happy_iter q L vt k).avg = L →
      (vbp_happy_iter q L vt (k + 1)).avg = L) ∧
    ((vbp_happy_iter q L vt k).avg ≠ L →
      |(vbp_happy_iter q L vt (k + 1)).avg - L|
        < |(vbp_happy_iter q L vt k).avg - L|) ∧
    ((vbp_happy_iter q L vt k).avg < L →
      (vbp_happy_iter q L vt k).avg < (vbp_happy_iter q L vt (k + 1)).avg ∧
      (vbp_happy_iter q L vt (k + 1)).avg ≤ L) ∧
    (L < (vbp_happy_iter q L vt k).avg →
      (vbp_happy_iter q L vt (k + 1)).avg < (vbp_happy_iter q L vt k).avg ∧
      L ≤ (vbp_happy_iter q L vt (k + 1)).avg) := by
  have hrk := vbp_happy_iter_rate_nonneg q L vt hr k
  have hkey := vbp_avg_step_key (vbp_happy_iter q L vt k).rate
    (vbp_happy_iter q L vt k).avg L hrk
  rw [vbp_happy_iter, (vbp_happy_cycle_rate_avg q L _).2]
  exact ⟨hkey.2.1, hkey.2.2.1, hkey.2.2.2.1, hkey.2.2.2.2⟩

/-- Witness for C9: the all-zero Target, `L = 1`, first step. -/
theorem c9_avg_monotone_convergence_witness :
    (0 : Rat) ≤ ({ happy := 0, last := 0, avg := 0, rate := 0, good := 0 }
        : TargetStats).rate ∧
    (((vbp_happy_iter probeC3 1
        { happy := 0, last := 0, avg := 0, rate := 0, good := 0 } 0).avg = 1 →
      (vbp_happy_iter probeC3 1
        { happy := 0, last := 0, avg := 0, rate := 0, good := 0 } 1).avg = 1) ∧
    ((vbp_happy_iter probeC3 1
        { happy := 0, last := 0, avg := 0, rate := 0, good := 0 } 0).avg ≠ 1 →
      |(vbp_happy_iter probeC3 1
        { happy := 0, last := 0, avg := 0, rate := 0, good := 0 } 1).avg - 1|
        < |(vbp_happy_iter probeC3 1
        { happy := 0, last := 0, avg := 0, rate := 0, good := 0 } 0).avg - 1|) ∧
    ((vbp_happy_iter probeC3 1
        { happy := 0, last := 0, avg := 0, rate := 0, good := 0 } 0).avg < 1 →
      (vbp_happy_iter probeC3 1
        { happy := 0, last := 0, avg := 0, rate := 0, good := 0 } 0).avg
        < (vbp_happy_iter probeC3 1
        { happy := 0, last := 0, avg := 0, rate := 0, good := 0 } 1).avg ∧
      (vbp_happy_iter probeC3 1
        { happy := 0, last := 0, avg := 0, rate := 0, good := 0 } 1).avg ≤ 1) ∧
    (1 < (vbp_happy_iter probeC3 1
        { happy := 0, last := 0, avg := 0, rate := 0, good := 0 } 0).avg →
      (vbp_happy_iter probeC3 1
        { happy := 0, last := 0, avg := 0, rate := 0, good := 0 } 1).avg
        < (vbp_happy_iter probeC3 1
        { happy := 0, last := 0, avg := 0, rate := 0, good := 0 } 0).avg ∧
      1 ≤ (vbp_happy_iter probeC3 1
        { happy := 0, last := 0, avg := 0, rate := 0, good := 0 } 1).avg)) :=
  ⟨le_refl 0,
   c9_avg_monotone_convergence probeC3 1
     { happy := 0, last := 0, avg := 0, rate := 0, good := 0 } (le_refl 0) 0⟩

theorem vbp_sscanf_float_forms :
    vbp_sscanf (("HTTP/1.1 200 OK").data) = (2, some 200) ∧
    vbp_sscanf (("HTTP/inf 200 OK").data) = (2, some 200) ∧
    vbp_sscanf (("HTTP/INFINITY 200 OK").data) = (2, some 200) ∧
    vbp_sscanf (("HTTP/nan 200 OK").data) = (2, some 200) ∧
    vbp_sscanf (("HTTP/nan(x7) 200 OK").data) = (2, some 200) ∧
    vbp_sscanf (("HTTP/0x1p3 200 OK").data) = (2, some 200) ∧
    vbp_sscanf (("HTTP/-1.5e2 200").data) = (1, some 200) ∧
    vbp_sscanf (("HTTP/junk 200 OK").data) = (0, none) := by
  decide

/-- C8: starting from a cleared newest bit (as `vbp_start_poke`
guarantees), the newest `happy` bit is set if and only if the response
line — NUL-forced at index 127 and truncated at the first CR or LF — scans
as `HTTP/<version> <status>` with optional reason (match count 1 or 2) and
the parsed status equals `exp_status`; a malformed or mismatched status
line leaves the bit 0. -/
theorem c8_happy_iff_status_match (exp_status : Nat) (buf : List Char)
    (happy : Nat) (h0 : happy % 2 = 0) :
    (vbp_poke_classify exp_status buf happy % 2 = 1 ↔
      ((vbp_sscanf (truncAt '\n' (truncAt '\r'
          ((buf.set 127 NUL).takeWhile (· ≠ NUL))))).1 = 1 ∨
        (vbp_sscanf (truncAt '\n' (truncAt '\r'
          ((buf.set 127 NUL).takeWhile (· ≠ NUL))))).1 = 2) ∧
      (vbp_sscanf (truncAt '\n' (truncAt '\r'
          ((buf.set 127 NUL).takeWhile (· ≠ NUL))))).2 = some exp_status) := by
  by_cases hcond :
      ((vbp_sscanf (truncAt '\n' (truncAt '\r'
          ((buf.set 127 NUL).takeWhile (· ≠ NUL))))).1 = 1 ∨
        (vbp_sscanf (truncAt '\n' (truncAt '\r'
          ((buf.set 127 NUL).takeWhile (· ≠ NUL))))).1 = 2) ∧
      (vbp_sscanf (truncAt '\n' (truncAt '\r'
          ((buf.set 127 NUL).takeWhile (· ≠ NUL))))).2 = some exp_status
  · simp only [vbp_poke_classify]
    rw [if_pos hcond]
    simp only [lor_one_mod_two]
    simpa using hcond
  · simp only [vbp_poke_classify]
    rw [if_neg hcond]
    simp only [h0]
    simpa using hcond

/-- Witness for C8: a 128-byte buffer holding `HTTP/1.1 200 OK` followed by
NUL padding, expected status 200. -/
theorem c8_happy_iff_status_match_witness :
    (0 : Nat) % 2 = 0 ∧
    (vbp_poke_classify 200
        (("HTTP/1.1 200 OK").data ++ List.replicate 113 NUL) 0 % 2 = 1 ↔
      ((vbp_sscanf (truncAt '\n' (truncAt '\r'
          (((("HTTP/1.1 200 OK").data ++ List.replicate 113 NUL).set 127 NUL).takeWhile
            (· ≠ NUL))))).1 = 1 ∨
        (vbp_sscanf (truncAt '\n' (truncAt '\r'
          (((("HTTP/1.1 200 OK").data ++ List.replicate 113 NUL).set 127 NUL).takeWhile
            (· ≠ NUL))))).1 = 2) ∧
      (vbp_sscanf (truncAt '\n' (truncAt '\r'
          (((("HTTP/1.1 200 OK").data ++ List.replicate 113 NUL).set 127 NUL).takeWhile
            (· ≠ NUL))))).2 = some 200) :=
  ⟨rfl, c8_happy_iff_status_match 200
    (("HTTP/1.1 200 OK").data ++ List.replicate 113 NUL) 0 rfl⟩

theorem vbp_read_go_eq (σ : Nat → Nat) (fuel : Nat) :
    ∀ (stream : List Char), stream.length ≤ fuel →
    ∀ (step : Nat) (buf : List Char), buf.length ≤ 128 →
    vbp_read_go σ fuel step stream buf = (buf ++ stream).take 128 := by
  induction fuel with
  | zero =>
      intro stream hs step buf hb
      have h : stream = [] := List.eq_nil_of_length_eq_zero (by omega)
      subst h
      simp [vbp_read_go, List.take_of_length_le hb]
  | succ n ih =>
      intro stream hs step buf hb
      match stream with
      | [] => simp [vbp_read_go, List.take_of_length_le hb]
      | x :: xs =>
          simp only [vbp_read_go]
          set c := max 1 (min (σ step)
            (min (if buf.length < 128 then 128 - buf.length else 8192)
              (x :: xs).length)) with hc
          have hc1 : 1 ≤ c := le_max_left _ _
          by_cases hlt : buf.length < 128
          · rw [if_pos hlt]
            have hcle : c ≤ 128 - buf.length := by
              have hreq : (if buf.length < 128 then 128 - buf.length else 8192)
                  = 128 - buf.length := if_pos hlt
              rw [hc, hreq]
              have hlen : 1 ≤ (x :: xs).length := by simp
              omega
            have hlen2 : (buf ++ (x :: xs).take c).length ≤ 128 := by
              simp only [List.length_append, List.length_take]
              omega
            have hdrop : ((x :: xs).drop c).length ≤ n := by
              simp only [List.length_drop]
              have hxs : (x :: xs).length ≤ n + 1 := hs
              omega
            rw [ih _ hdrop (step + 1) _ hlen2]
            rw [List.append_assoc, List.take_append_drop]
          · rw [if_neg hlt]
            have hbe : buf.length = 128 := by omega
            have hdrop : ((x :: xs).drop c).length ≤ n := by
              simp only [List.length_drop]
              have hxs : (x :: xs).length ≤ n + 1 := hs
              omega
            rw [ih _ hdrop (step + 1) _ hb]
            rw [List.take_append_eq_append_take, List.take_append_eq_append_take]
            simp [List.take_of_length_le, hbe]

theorem vbp_read_loop_take (σ : Nat → Nat) (stream : List Char) :
    vbp_read_loop σ stream = stream.take 128 := by
  rw [vbp_read_loop,
    vbp_read_go_eq σ stream.length stream (le_refl _) 0 [] (by simp)]
  simp

theorem vbp_resp_buf_set (stale : List Char) (hst : stale.length = 128)
    (σ1 σ2 : Nat → Nat) (s1 s2 : List Char) (h : s1.take 127 = s2.take 127) :
    (vbp_resp_buf stale σ1 s1).set 127 NUL
      = (vbp_resp_buf stale σ2 s2).set 127 NUL := by
  have hlen : ∀ (σ : Nat → Nat) (s : List Char),
      (vbp_resp_buf stale σ s).length = 128 := by
    intro σ s
    simp only [vbp_resp_buf, vbp_read_loop_take, List.length_append,
      List.length_drop, List.length_take, hst]
    omega
  have hmin : min 127 s1.length = min 127 s2.length := by
    have h1 := congrArg List.length h
    simpa [List.length_take] using h1
  by_cases hs1 : s1.length < 127
  · have hs2 : s2.length < 127 := by omega
    have he : s1 = s2 := by
      rw [List.take_of_length_le (by omega), List.take_of_length_le (by omega)] at h
      exact h
    subst he
    simp [vbp_resp_buf, vbp_read_loop_take]
  · have hs2 : ¬ (s2.length < 127) := by omega
    have htk : ∀ (σ : Nat → Nat) (s : List Char), 127 ≤ s.length →
        (vbp_resp_buf stale σ s).take 127 = s.take 127 := by
      intro σ s hsl
      simp only [vbp_resp_buf, vbp_read_loop_take]
      rw [List.take_append_eq_append_take]
      have h0 : 127 - (s.take 128).length = 0 := by
        simp only [List.length_take]
        omega
      have h127 : (127 : Nat) ⊓ 128 = 127 := by norm_num
      rw [h0, List.take_take, h127]
      simp
    have hset : ∀ (l : List Char), l.length = 128 →
        l.set 127 NUL = l.take 127 ++ [NUL] := by
      intro l hl
      rw [List.set_eq_take_append_cons_drop]
      rw [if_pos (by omega)]
      have hd : l.drop 128 = [] := List.drop_eq_nil_of_le (by omega)
      simp [hd]
    rw [hset _ (hlen σ1 s1), hset _ (hlen σ2 s2), htk σ1 s1 (by omega),
        htk σ2 s2 (by omega), h]

theorem vbp_poke_classify_congr (exp_status : Nat) (b1 b2 : List Char)
    (happy : Nat) (h : b1.set 127 NUL = b2.set 127 NUL) :
    vbp_poke_classify exp_status b1 happy
      = vbp_poke_classify exp_status b2 happy := by
  unfold vbp_poke_classify
  rw [h]

/-- C10: (1) whatever the read chunking, the bytes the receive loop writes
into `resp_buf` are exactly the first at-most-128 response bytes — it never
writes past the 128-byte buffer, overflow draining into the scratch buffer;
(2) since `resp_buf[127]` is forced to NUL before parsing, the happy
classification is a function of the first 127 response bytes only: two
responses agreeing on their first 127 bytes classify identically, for any
chunkings and the same prior buffer content. -/
theorem c10_resp_buf_bounded_and_local :
    (∀ (σ : Nat → Nat) (stream : List Char),
      vbp_read_loop σ stream = stream.take 128 ∧
      (vbp_read_loop σ stream).length ≤ 128) ∧
    (∀ (exp_status : Nat) (stale : List Char) (σ1 σ2 : Nat → Nat)
        (s1 s2 : List Char) (happy : Nat),
      stale.length = 128 → s1.take 127 = s2.take 127 →
      vbp_poke_recv_happy exp_status stale σ1 s1 happy
        = vbp_poke_recv_happy exp_status stale σ2 s2 happy) := by
  constructor
  · intro σ stream
    refine ⟨vbp_read_loop_take σ stream, ?_⟩
    rw [vbp_read_loop_take]
    simp only [List.length_take]
    omega
  · intro exp_status stale σ1 σ2 s1 s2 happy hst h
    have hmin : min 127 s1.length = min 127 s2.length := by
      have h1 := congrArg List.length h
      simpa [List.length_take] using h1
    unfold vbp_poke_recv_happy
    by_cases h1 : s1.length = 0
    · have h2 : s2.length = 0 := by omega
      rw [if_pos h1, if_pos h2]
    · have h2 : ¬ (s2.length = 0) := by omega
      rw [if_neg h1, if_neg h2]
      exact vbp_poke_classify_congr exp_status _ _ happy
        (vbp_resp_buf_set stale hst σ1 σ2 s1 s2 h)

/-- Witness for C10's second part: two 128-byte responses agreeing on their
first 127 bytes but differing in the 128th, delivered with different
chunkings, classify identically. -/
theorem c10_resp_buf_bounded_and_local_witness :
    (List.replicate 128 NUL).length = 128 ∧
    (List.replicate 127 'a' ++ ['X']).take 127
      = (List.replicate 127 'a' ++ ['Y']).take 127 ∧
    vbp_poke_recv_happy 200 (List.replicate 128 NUL) (fun _ => 128)
        (List.replicate 127 'a' ++ ['X']) 0
      = vbp_poke_recv_happy 200 (List.replicate 128 NUL) (fun _ => 1)
        (List.replicate 127 'a' ++ ['Y']) 0 :=
  ⟨by decide, by decide,
   c10_resp_buf_bounded_and_local.2 200 (List.replicate 128 NUL)
     (fun _ => 128) (fun _ => 1) (List.replicate 127 'a' ++ ['X'])
     (List.replicate 127 'a' ++ ['Y']) 0 (by decide) (by decide)⟩

end VBP
